import Mathlib

/-!
Shallow embedding of the AI-Negotiation-Simulator core
(`src/negotiation_agent_ultron.py`): the buyer strategy (`MockBuyerAgent`),
the seller strategy (`MockSellerAgent`) and the round loop
(`run_negotiation_test`).

Python arithmetic conventions used by the source are modelled exactly:
`int(x * 0.6)`, `int(x * 1.1)`, `int(x * 1.15)`, `int(x * 1.05)`,
`int(x * 1.5)` are truncating conversions of an exact product, modelled as
`Int.tdiv (x * n) d` with the multiplier written as the fraction `n / d`
(truncation toward zero, which is what Python's `int()` does).  Comparisons
against scaled prices (`seller_price < base * 0.85`,
`candidate > seller_price * 0.95`, `buyer_offer >= min_price * 1.1`) are
modelled by cross-multiplied integer comparisons, which agree with the
exact-rational reading of the source.  The LLM text generator
(`NegotiationLLM.call`) is modelled as an opaque function parameter: the
source only ever places its output in the message component of a result.
-/

namespace AINegotiation

/-- `DealStatus` enumeration from the source. -/
inductive DealStatus where
  | ONGOING
  | ACCEPTED
  | REJECTED
  | TIMEOUT
deriving DecidableEq, Repr

/-- `Product` dataclass (the `attributes` mapping is modelled as an
association list; no strategy reads it). -/
structure Product where
  name : String
  category : String
  quantity : Int
  quality_grade : String
  origin : String
  base_market_price : Int
  attributes : List (String × String)

/-- `NegotiationContext` dataclass.  A message is a `(role, text)` pair. -/
structure NegotiationContext where
  product : Product
  your_budget : Int
  current_round : Nat
  seller_offers : List Int
  your_offers : List Int
  messages : List (String × String)

/-- The data the source hands to `NegotiationLLM.call`: the counterpart
message, a deal-status string and the price being communicated. -/
structure LLMRequest where
  counterpart_message : String
  deal_status : String
  price : Int

/-- The text-generation capability (`NegotiationLLM.call`), modelled as an
arbitrary function from request data to text. -/
abbrev LLMCall := LLMRequest → String

namespace MockBuyerAgent

/-- `MockBuyerAgent.generate_opening_offer`:
`initial_offer = min(int(base_market_price * 0.6), your_budget)`. -/
def generate_opening_offer (context : NegotiationContext) : Int × String :=
  let initial_offer := Int.tdiv (context.product.base_market_price * 6) 10
  let initial_offer := min initial_offer context.your_budget
  (initial_offer,
    "I am interested, but " ++ toString initial_offer ++
      " is what I can offer. Let me think about that...")

/-- `MockBuyerAgent.respond_to_seller_offer`.  Accept when
`seller_price < your_budget and seller_price < base_market_price * 0.85`;
otherwise raise the last own offer by 10% (capped at budget), and when that
candidate exceeds `seller_price * 0.95` switch to
`min(seller_price - 1000, your_budget)`.  The status returned on the
counter path is always `ONGOING`. -/
def respond_to_seller_offer (llm : LLMCall) (context : NegotiationContext)
    (seller_price : Int) (seller_message : String) : DealStatus × Int × String :=
  if seller_price < context.your_budget ∧
      100 * seller_price < 85 * context.product.base_market_price then
    let message := llm
      { counterpart_message := seller_message
        deal_status := "DealStatus.ACCEPTED"
        price := seller_price }
    (DealStatus.ACCEPTED, seller_price, message)
  else
    let last_offer := context.your_offers.getLastD 0
    let base_increment := min (Int.tdiv (last_offer * 11) 10) context.your_budget
    let near_close := 20 * base_increment > 19 * seller_price
    let little_incremented_price :=
      if near_close then min (seller_price - 1000) context.your_budget
      else base_increment
    let deal_status_message :=
      if near_close then
        "DealStatus.ONGOING" ++ "deal is close to agree, the deal will close soon."
      else "DealStatus.ONGOING"
    let message := llm
      { counterpart_message := seller_message
        deal_status := deal_status_message
        price := little_incremented_price }
    (DealStatus.ONGOING, little_incremented_price, message)

end MockBuyerAgent

/-- `MockSellerAgent`: carries the reservation price and a personality tag. -/
structure MockSellerAgent where
  min_price : Int
  personality : String

/-- `MockSellerAgent.get_opening_price`: `int(base_market_price * 1.5)`. -/
def MockSellerAgent.get_opening_price ( _seller : MockSellerAgent)
    (product : Product) : Int × String :=
  let price := Int.tdiv (product.base_market_price * 3) 2
  (price,
    "These are premium " ++ product.quality_grade ++ " grade " ++ product.name ++
      ". I am asking " ++ toString price ++ ".")

/-- `MockSellerAgent.respond_to_buyer_offer`.  Accept at the buyer's own
offer when `buyer_offer >= min_price * 1.1`; otherwise counter with
`max(min_price, int(buyer_offer * 1.05))` when `round_num >= 8` and
`max(min_price, int(buyer_offer * 1.15))` otherwise. -/
def MockSellerAgent.respond_to_buyer_offer (seller : MockSellerAgent) (llm : LLMCall)
    (buyer_offer : Int) (round_num : Nat) (buyer_message : String) :
    Int × String × Bool :=
  if 10 * buyer_offer ≥ 11 * seller.min_price then
    let message := llm
      { counterpart_message := buyer_message
        deal_status := "DealStatus.ACCEPTED" ++ ", you accepting the deal with buyer price itself."
        price := buyer_offer }
    (buyer_offer, message, true)
  else
    let counter :=
      if round_num ≥ 8 then max seller.min_price (Int.tdiv (buyer_offer * 21) 20)
      else max seller.min_price (Int.tdiv (buyer_offer * 23) 20)
    let deal_status_message :=
      if round_num ≥ 8 then
        "DealStatus.TIMEOUT" ++ ", running out of time, need to close the deal soon."
      else "DealStatus.ONGOING" ++ ", I can come down to " ++ toString counter ++ "."
    let message := llm
      { counterpart_message := buyer_message
        deal_status := deal_status_message
        price := counter }
    (counter, message, false)

/-- The outcome assembled by `run_negotiation_test` (the fields the claims
are about; the final context is kept so recorded offer histories can be
inspected). -/
structure RunOutcome where
  deal_made : Bool
  final_price : Option Int
  rounds : Nat
  ctx : NegotiationContext

/-- The buyer move of one loop iteration of `run_negotiation_test`:
round 0 takes the opening-offer path with status forced to `ONGOING`, any
later round takes the counter-offer path. -/
def buyerStep (llm : LLMCall) (round : Nat) (ctx : NegotiationContext)
    (seller_price : Int) (seller_msg : String) : DealStatus × Int × String :=
  if round = 0 then
    let opening := MockBuyerAgent.generate_opening_offer ctx
    (DealStatus.ONGOING, opening.1, opening.2)
  else
    MockBuyerAgent.respond_to_seller_offer llm ctx seller_price seller_msg

/-- The `for round in range(10)` loop of `run_negotiation_test`, as a
recursion over the list of remaining 0-based round indices.  Each step sets
`current_round = round + 1`, runs the buyer, records the buyer offer and
message, terminates at the seller's last price on buyer acceptance,
otherwise runs the seller (note: the source passes the 0-based `round` to
the seller), terminates at the buyer's offer on seller acceptance, and
otherwise records the counter and continues. -/
def runRounds (llm : LLMCall) (seller : MockSellerAgent) :
    List Nat → NegotiationContext → Int → String → RunOutcome
  | [], ctx, _seller_price, _seller_msg =>
    { deal_made := false, final_price := none, rounds := ctx.current_round, ctx := ctx }
  | round :: rest, ctx0, seller_price, seller_msg =>
    let ctx1 := { ctx0 with current_round := round + 1 }
    let b := buyerStep llm round ctx1 seller_price seller_msg
    let ctx2 := { ctx1 with
      your_offers := ctx1.your_offers ++ [b.2.1]
      messages := ctx1.messages ++ [("buyer", b.2.2)] }
    if b.1 = DealStatus.ACCEPTED then
      { deal_made := true, final_price := some seller_price,
        rounds := ctx2.current_round, ctx := ctx2 }
    else
      let s := seller.respond_to_buyer_offer llm b.2.1 round b.2.2
      if s.2.2 then
        let ctx3 := { ctx2 with messages := ctx2.messages ++ [("seller", s.2.1)] }
        { deal_made := true, final_price := some b.2.1,
          rounds := ctx3.current_round, ctx := ctx3 }
      else
        let ctx3 := { ctx2 with
          seller_offers := ctx2.seller_offers ++ [s.1]
          messages := ctx2.messages ++ [("seller", s.2.1)] }
        runRounds llm seller rest ctx3 s.1 s.2.1

/-- `run_negotiation_test`: build the context, record the seller's opening
price and message, then run the 10-round loop. -/
def run_negotiation_test (llm : LLMCall) (product : Product)
    (buyer_budget : Int) (seller_min : Int) : RunOutcome :=
  let seller : MockSellerAgent := { min_price := seller_min, personality := "standard" }
  let context : NegotiationContext :=
    { product := product, your_budget := buyer_budget, current_round := 0,
      seller_offers := [], your_offers := [], messages := [] }
  let opening := seller.get_opening_price product
  let context := { context with
    seller_offers := context.seller_offers ++ [opening.1]
    messages := context.messages ++ [("seller", opening.2)] }
  runRounds llm seller (List.range 10) context opening.1 opening.2

/-- A concrete text generator used for concrete evaluations: the numeric
behaviour of the core is independent of it. -/
def llm0 : LLMCall := fun _ => ""

/-- A concrete product used for concrete evaluations. -/
def mangoProduct : Product :=
  { name := "Alphonso Mangoes", category := "Mangoes", quantity := 100,
    quality_grade := "A", origin := "Ratnagiri", base_market_price := 10000,
    attributes := [("ripeness", "optimal")] }

/-- A concrete seller used for concrete evaluations. -/
def sellerW : MockSellerAgent :=
  { min_price := 9500, personality := "standard" }

/-- A concrete product with the easy-scenario market price. -/
def alphonsoProduct : Product :=
  { name := "Alphonso Mangoes", category := "Mangoes", quantity := 100,
    quality_grade := "A", origin := "Ratnagiri", base_market_price := 180000,
    attributes := [("ripeness", "optimal")] }

/-- The context state of the easy scenario just before its second round:
the buyer has opened at 108000 and the seller has countered at 144000. -/
def ctxEasy : NegotiationContext :=
  { product := alphonsoProduct, your_budget := 216000, current_round := 1,
    seller_offers := [270000, 144000], your_offers := [108000], messages := [] }

/-- The context state of the easy scenario at the very start of the loop:
only the seller's opening price is recorded. -/
def ctxOpen : NegotiationContext :=
  { product := alphonsoProduct, your_budget := 216000, current_round := 0,
    seller_offers := [270000], your_offers := [], messages := [] }

/-- The context state of the run with base 10000, budget 10000, min 9500,
just before its sixth round (0-based round index 5). -/
def ctxMid : NegotiationContext :=
  { product := mangoProduct, your_budget := 10000, current_round := 5,
    seller_offers := [15000, 9500, 9500, 9500, 9500, 10101],
    your_offers := [6000, 6600, 7260, 7986, 8784], messages := [] }

/-- The context state of the same run just before its ninth round (0-based
round index 8). -/
def ctxLate : NegotiationContext :=
  { product := mangoProduct, your_budget := 10000, current_round := 8,
    seller_offers := [15000, 9500, 9500, 9500, 9500, 10101, 10466, 10885, 11500],
    your_offers := [6000, 6600, 7260, 7986, 8784, 9101, 9466, 10000],
    messages := [] }

example :
    (run_negotiation_test llm0 mangoProduct 10000 9500).ctx.your_offers =
      [6000, 6600, 7260, 7986, 8784, 9101, 9466, 10000, 10000, 9500] := by
  decide

example :
    (run_negotiation_test llm0 mangoProduct 10000 9500).ctx.seller_offers =
      [15000, 9500, 9500, 9500, 9500, 10101, 10466, 10885, 11500, 10500, 9975] := by
  decide

/-! ### Arithmetic bridge lemmas

Python's `int(x * m)` for a nonnegative `x` and a positive decimal
multiplier `m = n / d` equals the rational floor `⌊x * m⌋`; the cross-
multiplied integer comparisons used in the embedding are equivalent to the
exact rational comparisons written in the specification. -/

lemma tdiv_eq_floor_div (a : Int) (d : Nat) (ha : 0 ≤ a) :
    Int.tdiv a (d : Int) = ⌊(a : ℚ) / (d : ℚ)⌋ := by
  rw [Rat.floor_intCast_div_natCast a d]
  exact Int.tdiv_eq_ediv ha (Int.natCast_nonneg d)

lemma tdiv_six_ten (x : Int) (hx : 0 ≤ x) :
    Int.tdiv (x * 6) 10 = ⌊(0.6 : ℚ) * (x : ℚ)⌋ := by
  have h := tdiv_eq_floor_div (x * 6) 10 (by positivity)
  norm_num at h
  rw [h]
  congr 1
  norm_num
  ring

lemma tdiv_eleven_ten (x : Int) (hx : 0 ≤ x) :
    Int.tdiv (x * 11) 10 = ⌊(x : ℚ) * 1.1⌋ := by
  have h := tdiv_eq_floor_div (x * 11) 10 (by positivity)
  norm_num at h
  rw [h]
  congr 1
  norm_num
  ring

lemma tdiv_three_two (x : Int) (hx : 0 ≤ x) :
    Int.tdiv (x * 3) 2 = ⌊(1.5 : ℚ) * (x : ℚ)⌋ := by
  have h := tdiv_eq_floor_div (x * 3) 2 (by positivity)
  norm_num at h
  rw [h]
  congr 1
  norm_num
  ring

lemma tdiv_twentyone_twenty (x : Int) (hx : 0 ≤ x) :
    Int.tdiv (x * 21) 20 = ⌊(x : ℚ) * 1.05⌋ := by
  have h := tdiv_eq_floor_div (x * 21) 20 (by positivity)
  norm_num at h
  rw [h]
  congr 1
  norm_num
  ring

lemma tdiv_twentythree_twenty (x : Int) (hx : 0 ≤ x) :
    Int.tdiv (x * 23) 20 = ⌊(x : ℚ) * 1.15⌋ := by
  have h := tdiv_eq_floor_div (x * 23) 20 (by positivity)
  norm_num at h
  rw [h]
  congr 1
  norm_num
  ring

lemma accept_test_iff (sp base : Int) :
    100 * sp < 85 * base ↔ (sp : ℚ) < 0.85 * (base : ℚ) := by
  constructor
  · intro h
    have h2 : ((100 * sp : ℤ) : ℚ) < ((85 * base : ℤ) : ℚ) := by exact_mod_cast h
    push_cast at h2
    linarith
  · intro h
    have h2 : (100 : ℚ) * (sp : ℚ) < 85 * (base : ℚ) := by linarith
    exact_mod_cast h2

lemma margin_test_iff (o m : Int) :
    10 * o ≥ 11 * m ↔ (o : ℚ) ≥ 1.1 * (m : ℚ) := by
  constructor
  · intro h
    have h2 : ((11 * m : ℤ) : ℚ) ≤ ((10 * o : ℤ) : ℚ) := by exact_mod_cast h
    push_cast at h2
    linarith
  · intro h
    have h2 : (11 : ℚ) * (m : ℚ) ≤ 10 * (o : ℚ) := by linarith
    exact_mod_cast h2

lemma near_close_iff (c sp : Int) :
    20 * c > 19 * sp ↔ (c : ℚ) > 0.95 * (sp : ℚ) := by
  constructor
  · intro h
    have h2 : ((19 * sp : ℤ) : ℚ) < ((20 * c : ℤ) : ℚ) := by exact_mod_cast h
    push_cast at h2
    linarith
  · intro h
    have h2 : (19 : ℚ) * (sp : ℚ) < 20 * (c : ℚ) := by linarith
    exact_mod_cast h2

/-! ### Strategy-level lemmas -/

lemma generate_opening_offer_le (ctx : NegotiationContext) :
    (MockBuyerAgent.generate_opening_offer ctx).1 ≤ ctx.your_budget := by
  unfold MockBuyerAgent.generate_opening_offer
  exact min_le_right _ _

lemma respond_to_seller_offer_le (llm : LLMCall) (ctx : NegotiationContext)
    (sp : Int) (sm : String) :
    (MockBuyerAgent.respond_to_seller_offer llm ctx sp sm).2.1 ≤ ctx.your_budget := by
  unfold MockBuyerAgent.respond_to_seller_offer
  split
  · next h => exact le_of_lt h.1
  · dsimp only
    split
    · exact min_le_right _ _
    · exact min_le_right _ _

lemma buyerStep_le (llm : LLMCall) (round : Nat) (ctx : NegotiationContext)
    (sp : Int) (sm : String) :
    (buyerStep llm round ctx sp sm).2.1 ≤ ctx.your_budget := by
  unfold buyerStep
  split
  · exact generate_opening_offer_le ctx
  · exact respond_to_seller_offer_le llm ctx sp sm

lemma buyerStep_of_ne_zero (llm : LLMCall) (round : Nat) (ctx : NegotiationContext)
    (sp : Int) (sm : String) (hr : round ≠ 0) :
    buyerStep llm round ctx sp sm =
      MockBuyerAgent.respond_to_seller_offer llm ctx sp sm := by
  unfold buyerStep
  rw [if_neg hr]

lemma respond_accept_iff (llm : LLMCall) (ctx : NegotiationContext)
    (sp : Int) (sm : String) :
    ((MockBuyerAgent.respond_to_seller_offer llm ctx sp sm).1 = DealStatus.ACCEPTED ↔
      sp < ctx.your_budget ∧ 100 * sp < 85 * ctx.product.base_market_price)
    ∧ ((MockBuyerAgent.respond_to_seller_offer llm ctx sp sm).1 = DealStatus.ACCEPTED →
      (MockBuyerAgent.respond_to_seller_offer llm ctx sp sm).2.1 = sp) := by
  unfold MockBuyerAgent.respond_to_seller_offer
  split
  · next h => exact ⟨⟨fun _ => h, fun _ => rfl⟩, fun _ => rfl⟩
  · next h =>
    refine ⟨⟨fun hc => absurd hc (by simp), fun hc => absurd hc h⟩, fun hc => absurd hc (by simp)⟩

lemma seller_accept_iff (seller : MockSellerAgent) (llm : LLMCall)
    (o : Int) (r : Nat) (m : String) :
    ((seller.respond_to_buyer_offer llm o r m).2.2 = true ↔
      10 * o ≥ 11 * seller.min_price)
    ∧ ((seller.respond_to_buyer_offer llm o r m).2.2 = true →
      (seller.respond_to_buyer_offer llm o r m).1 = o) := by
  unfold MockSellerAgent.respond_to_buyer_offer
  split
  · next h => exact ⟨⟨fun _ => h, fun _ => rfl⟩, fun _ => rfl⟩
  · next h =>
    refine ⟨⟨fun hc => absurd hc (by simp), fun hc => absurd hc h⟩, fun hc => absurd hc (by simp)⟩

lemma seller_not_accept (seller : MockSellerAgent) (llm : LLMCall)
    (o : Int) (r : Nat) (m : String)
    (h : (seller.respond_to_buyer_offer llm o r m).2.2 = false) :
    ¬ 10 * o ≥ 11 * seller.min_price := by
  intro hthr
  have htrue := (seller_accept_iff seller llm o r m).1.2 hthr
  rw [htrue] at h
  cases h

lemma seller_counter_ge (seller : MockSellerAgent) (llm : LLMCall)
    (o : Int) (r : Nat) (m : String)
    (h : (seller.respond_to_buyer_offer llm o r m).2.2 = false) :
    seller.min_price ≤ (seller.respond_to_buyer_offer llm o r m).1 := by
  have hn := seller_not_accept seller llm o r m h
  simp only [MockSellerAgent.respond_to_buyer_offer, if_neg hn]
  by_cases hr : r ≥ 8
  · simp only [if_pos hr]
    exact le_max_left _ _
  · simp only [if_neg hr]
    exact le_max_left _ _

/-! ### One-step equations for the round loop -/

lemma runRounds_cons_buyer_accepts (llm : LLMCall) (seller : MockSellerAgent)
    (round : Nat) (rest : List Nat) (ctx : NegotiationContext) (sp : Int) (sm : String)
    (hb : (buyerStep llm round { ctx with current_round := round + 1 } sp sm).1 =
      DealStatus.ACCEPTED) :
    runRounds llm seller (round :: rest) ctx sp sm =
      { deal_made := true
        final_price := some sp
        rounds := round + 1
        ctx := { ctx with
          current_round := round + 1
          your_offers := ctx.your_offers ++
            [(buyerStep llm round { ctx with current_round := round + 1 } sp sm).2.1]
          messages := ctx.messages ++
            [("buyer", (buyerStep llm round { ctx with current_round := round + 1 } sp sm).2.2)] } } := by
  simp only [runRounds]
  rw [if_pos hb]

lemma runRounds_cons_seller_accepts (llm : LLMCall) (seller : MockSellerAgent)
    (round : Nat) (rest : List Nat) (ctx : NegotiationContext) (sp : Int) (sm : String)
    (hb : (buyerStep llm round { ctx with current_round := round + 1 } sp sm).1 ≠
      DealStatus.ACCEPTED)
    (hs : (seller.respond_to_buyer_offer llm
        (buyerStep llm round { ctx with current_round := round + 1 } sp sm).2.1 round
        (buyerStep llm round { ctx with current_round := round + 1 } sp sm).2.2).2.2 = true) :
    runRounds llm seller (round :: rest) ctx sp sm =
      { deal_made := true
        final_price := some (buyerStep llm round { ctx with current_round := round + 1 } sp sm).2.1
        rounds := round + 1
        ctx := { ctx with
          current_round := round + 1
          your_offers := ctx.your_offers ++
            [(buyerStep llm round { ctx with current_round := round + 1 } sp sm).2.1]
          messages := (ctx.messages ++
            [("buyer", (buyerStep llm round { ctx with current_round := round + 1 } sp sm).2.2)]) ++
            [("seller", (seller.respond_to_buyer_offer llm
              (buyerStep llm round { ctx with current_round := round + 1 } sp sm).2.1 round
              (buyerStep llm round { ctx with current_round := round + 1 } sp sm).2.2).2.1)] } } := by
  simp only [runRounds]
  rw [if_neg hb, if_pos hs]

lemma runRounds_cons_continue (llm : LLMCall) (seller : MockSellerAgent)
    (round : Nat) (rest : List Nat) (ctx : NegotiationContext) (sp : Int) (sm : String)
    (hb : (buyerStep llm round { ctx with current_round := round + 1 } sp sm).1 ≠
      DealStatus.ACCEPTED)
    (hs : (seller.respond_to_buyer_offer llm
        (buyerStep llm round { ctx with current_round := round + 1 } sp sm).2.1 round
        (buyerStep llm round { ctx with current_round := round + 1 } sp sm).2.2).2.2 = false) :
    runRounds llm seller (round :: rest) ctx sp sm =
      runRounds llm seller rest
        { ctx with
          current_round := round + 1
          your_offers := ctx.your_offers ++
            [(buyerStep llm round { ctx with current_round := round + 1 } sp sm).2.1]
          seller_offers := ctx.seller_offers ++
            [(seller.respond_to_buyer_offer llm
              (buyerStep llm round { ctx with current_round := round + 1 } sp sm).2.1 round
              (buyerStep llm round { ctx with current_round := round + 1 } sp sm).2.2).1]
          messages := (ctx.messages ++
            [("buyer", (buyerStep llm round { ctx with current_round := round + 1 } sp sm).2.2)]) ++
            [("seller", (seller.respond_to_buyer_offer llm
              (buyerStep llm round { ctx with current_round := round + 1 } sp sm).2.1 round
              (buyerStep llm round { ctx with current_round := round + 1 } sp sm).2.2).2.1)] }
        (seller.respond_to_buyer_offer llm
          (buyerStep llm round { ctx with current_round := round + 1 } sp sm).2.1 round
          (buyerStep llm round { ctx with current_round := round + 1 } sp sm).2.2).1
        (seller.respond_to_buyer_offer llm
          (buyerStep llm round { ctx with current_round := round + 1 } sp sm).2.1 round
          (buyerStep llm round { ctx with current_round := round + 1 } sp sm).2.2).2.1 := by
  simp only [runRounds]
  rw [if_neg hb, if_neg (by rw [hs]; exact Bool.false_ne_true)]

/-! ### Loop invariants -/

lemma runRounds_offers_le (llm : LLMCall) (seller : MockSellerAgent) :
    ∀ (l : List Nat) (ctx : NegotiationContext) (sp : Int) (sm : String),
      (∀ x ∈ ctx.your_offers, x ≤ ctx.your_budget) →
      ∀ x ∈ (runRounds llm seller l ctx sp sm).ctx.your_offers, x ≤ ctx.your_budget := by
  intro l
  induction l with
  | nil =>
    intro ctx sp sm h x hx
    simp only [runRounds] at hx
    exact h x hx
  | cons round rest ih =>
    intro ctx sp sm h x hx
    have hoffer : (buyerStep llm round { ctx with current_round := round + 1 } sp sm).2.1 ≤
        ctx.your_budget :=
      buyerStep_le llm round { ctx with current_round := round + 1 } sp sm
    by_cases hb : (buyerStep llm round { ctx with current_round := round + 1 } sp sm).1 =
        DealStatus.ACCEPTED
    · rw [runRounds_cons_buyer_accepts llm seller round rest ctx sp sm hb] at hx
      rcases List.mem_append.mp hx with h1 | h2
      · exact h x h1
      · rw [List.mem_singleton] at h2
        subst h2
        exact hoffer
    · by_cases hs : (seller.respond_to_buyer_offer llm
          (buyerStep llm round { ctx with current_round := round + 1 } sp sm).2.1 round
          (buyerStep llm round { ctx with current_round := round + 1 } sp sm).2.2).2.2 = true
      · rw [runRounds_cons_seller_accepts llm seller round rest ctx sp sm hb hs] at hx
        rcases List.mem_append.mp hx with h1 | h2
        · exact h x h1
        · rw [List.mem_singleton] at h2
          subst h2
          exact hoffer
      · replace hs : (seller.respond_to_buyer_offer llm
            (buyerStep llm round { ctx with current_round := round + 1 } sp sm).2.1 round
            (buyerStep llm round { ctx with current_round := round + 1 } sp sm).2.2).2.2 = false := by
          simpa using hs
        rw [runRounds_cons_continue llm seller round rest ctx sp sm hb hs] at hx
        have hinv : ∀ y ∈ ctx.your_offers ++
            [(buyerStep llm round { ctx with current_round := round + 1 } sp sm).2.1],
            y ≤ ctx.your_budget := by
          intro y hy
          rcases List.mem_append.mp hy with h1 | h2
          · exact h y h1
          · rw [List.mem_singleton] at h2
            subst h2
            exact hoffer
        exact ih
          { ctx with
            current_round := round + 1
            your_offers := ctx.your_offers ++
              [(buyerStep llm round { ctx with current_round := round + 1 } sp sm).2.1]
            seller_offers := ctx.seller_offers ++
              [(seller.respond_to_buyer_offer llm
                (buyerStep llm round { ctx with current_round := round + 1 } sp sm).2.1 round
                (buyerStep llm round { ctx with current_round := round + 1 } sp sm).2.2).1]
            messages := (ctx.messages ++
              [("buyer", (buyerStep llm round { ctx with current_round := round + 1 } sp sm).2.2)]) ++
              [("seller", (seller.respond_to_buyer_offer llm
                (buyerStep llm round { ctx with current_round := round + 1 } sp sm).2.1 round
                (buyerStep llm round { ctx with current_round := round + 1 } sp sm).2.2).2.1)] }
          _ _ hinv x hx

lemma runRounds_seller_history (llm : LLMCall) (seller : MockSellerAgent) :
    ∀ (l : List Nat) (ctx : NegotiationContext) (sp : Int) (sm : String),
      ∃ t : List Int,
        (runRounds llm seller l ctx sp sm).ctx.seller_offers = ctx.seller_offers ++ t
        ∧ ∀ x ∈ t, seller.min_price ≤ x := by
  intro l
  induction l with
  | nil =>
    intro ctx sp sm
    exact ⟨[], by simp [runRounds], by simp⟩
  | cons round rest ih =>
    intro ctx sp sm
    by_cases hb : (buyerStep llm round { ctx with current_round := round + 1 } sp sm).1 =
        DealStatus.ACCEPTED
    · refine ⟨[], ?_, by simp⟩
      rw [runRounds_cons_buyer_accepts llm seller round rest ctx sp sm hb, List.append_nil]
    · by_cases hs : (seller.respond_to_buyer_offer llm
          (buyerStep llm round { ctx with current_round := round + 1 } sp sm).2.1 round
          (buyerStep llm round { ctx with current_round := round + 1 } sp sm).2.2).2.2 = true
      · refine ⟨[], ?_, by simp⟩
        rw [runRounds_cons_seller_accepts llm seller round rest ctx sp sm hb hs, List.append_nil]
      · replace hs : (seller.respond_to_buyer_offer llm
            (buyerStep llm round { ctx with current_round := round + 1 } sp sm).2.1 round
            (buyerStep llm round { ctx with current_round := round + 1 } sp sm).2.2).2.2 = false := by
          simpa using hs
        rw [runRounds_cons_continue llm seller round rest ctx sp sm hb hs]
        obtain ⟨t, ht, hge⟩ := ih _ _ _
        refine ⟨(seller.respond_to_buyer_offer llm
          (buyerStep llm round { ctx with current_round := round + 1 } sp sm).2.1 round
          (buyerStep llm round { ctx with current_round := round + 1 } sp sm).2.2).1 :: t, ?_, ?_⟩
        · rw [ht]
          show (ctx.seller_offers ++ [(seller.respond_to_buyer_offer llm
            (buyerStep llm round { ctx with current_round := round + 1 } sp sm).2.1 round
            (buyerStep llm round { ctx with current_round := round + 1 } sp sm).2.2).1]) ++ t = _
          rw [List.append_assoc]
          rfl
        · intro x hx
          rcases List.mem_cons.mp hx with h1 | h2
          · subst h1
            exact seller_counter_ge seller llm _ round _ hs
          · exact hge x h2

lemma runRounds_rounds_le (llm : LLMCall) (seller : MockSellerAgent) :
    ∀ (l : List Nat) (ctx : NegotiationContext) (sp : Int) (sm : String),
      ctx.current_round ≤ 10 → (∀ r ∈ l, r + 1 ≤ 10) →
      (runRounds llm seller l ctx sp sm).rounds ≤ 10 := by
  intro l
  induction l with
  | nil =>
    intro ctx sp sm h _
    simpa [runRounds] using h
  | cons round rest ih =>
    intro ctx sp sm h hl
    have hr : round + 1 ≤ 10 := hl round (List.mem_cons_self round rest)
    by_cases hb : (buyerStep llm round { ctx with current_round := round + 1 } sp sm).1 =
        DealStatus.ACCEPTED
    · rw [runRounds_cons_buyer_accepts llm seller round rest ctx sp sm hb]
      exact hr
    · by_cases hs : (seller.respond_to_buyer_offer llm
          (buyerStep llm round { ctx with current_round := round + 1 } sp sm).2.1 round
          (buyerStep llm round { ctx with current_round := round + 1 } sp sm).2.2).2.2 = true
      · rw [runRounds_cons_seller_accepts llm seller round rest ctx sp sm hb hs]
        exact hr
      · replace hs : (seller.respond_to_buyer_offer llm
            (buyerStep llm round { ctx with current_round := round + 1 } sp sm).2.1 round
            (buyerStep llm round { ctx with current_round := round + 1 } sp sm).2.2).2.2 = false := by
          simpa using hs
        rw [runRounds_cons_continue llm seller round rest ctx sp sm hb hs]
        refine ih _ _ _ hr ?_
        intro r hr2
        exact hl r (List.mem_cons_of_mem round hr2)

lemma runRounds_no_deal (llm : LLMCall) (seller : MockSellerAgent) :
    ∀ (l : List Nat) (ctx : NegotiationContext) (sp : Int) (sm : String),
      (runRounds llm seller l ctx sp sm).deal_made = false →
      (runRounds llm seller l ctx sp sm).final_price = none ∧
      (runRounds llm seller l ctx sp sm).rounds =
        (l.map (fun r => r + 1)).getLastD ctx.current_round := by
  intro l
  induction l with
  | nil =>
    intro ctx sp sm _
    exact ⟨rfl, rfl⟩
  | cons round rest ih =>
    intro ctx sp sm h
    by_cases hb : (buyerStep llm round { ctx with current_round := round + 1 } sp sm).1 =
        DealStatus.ACCEPTED
    · rw [runRounds_cons_buyer_accepts llm seller round rest ctx sp sm hb] at h
      simp at h
    · by_cases hs : (seller.respond_to_buyer_offer llm
          (buyerStep llm round { ctx with current_round := round + 1 } sp sm).2.1 round
          (buyerStep llm round { ctx with current_round := round + 1 } sp sm).2.2).2.2 = true
      · rw [runRounds_cons_seller_accepts llm seller round rest ctx sp sm hb hs] at h
        simp at h
      · replace hs : (seller.respond_to_buyer_offer llm
            (buyerStep llm round { ctx with current_round := round + 1 } sp sm).2.1 round
            (buyerStep llm round { ctx with current_round := round + 1 } sp sm).2.2).2.2 = false := by
          simpa using hs
        rw [runRounds_cons_continue llm seller round rest ctx sp sm hb hs] at h ⊢
        obtain ⟨h1, h2⟩ := ih _ _ _ h
        refine ⟨h1, ?_⟩
        rw [h2, List.map_cons, List.getLastD_cons]

/-! ### Claim theorems -/

/-- C1: whenever the buyer's counter-offer path is invoked in a transition
round `r = round + 1 ≥ 2` against the seller's current price `sp`, the
buyer signals `ACCEPTED` exactly when `sp < budget` and
`sp < 0.85 * base_market_price`; in that case the accepted price is `sp`
and the run terminates at round `r` with `deal_made = true` and final
price `sp`, the seller's last quoted price. -/
theorem C1_buyer_acceptance (llm : LLMCall) (seller : MockSellerAgent) (round : Nat)
    (rest : List Nat) (ctx : NegotiationContext) (sp : Int) (sm : String)
    (hr : round ≠ 0) :
    ((MockBuyerAgent.respond_to_seller_offer llm { ctx with current_round := round + 1 } sp sm).1 =
        DealStatus.ACCEPTED ↔
      (sp < ctx.your_budget ∧ (sp : ℚ) < 0.85 * (ctx.product.base_market_price : ℚ)))
    ∧ ((MockBuyerAgent.respond_to_seller_offer llm { ctx with current_round := round + 1 } sp sm).1 =
        DealStatus.ACCEPTED →
      (MockBuyerAgent.respond_to_seller_offer llm
          { ctx with current_round := round + 1 } sp sm).2.1 = sp
      ∧ (runRounds llm seller (round :: rest) ctx sp sm).deal_made = true
      ∧ (runRounds llm seller (round :: rest) ctx sp sm).final_price = some sp
      ∧ (runRounds llm seller (round :: rest) ctx sp sm).rounds = round + 1) := by
  have hiff := respond_accept_iff llm { ctx with current_round := round + 1 } sp sm
  constructor
  · rw [hiff.1]
    constructor
    · rintro ⟨h1, h2⟩
      exact ⟨h1, (accept_test_iff sp ctx.product.base_market_price).mp h2⟩
    · rintro ⟨h1, h2⟩
      exact ⟨h1, (accept_test_iff sp ctx.product.base_market_price).mpr h2⟩
  · intro hacc
    have hb : (buyerStep llm round { ctx with current_round := round + 1 } sp sm).1 =
        DealStatus.ACCEPTED := by
      rw [buyerStep_of_ne_zero llm round { ctx with current_round := round + 1 } sp sm hr]
      exact hacc
    refine ⟨hiff.2 hacc, ?_, ?_, ?_⟩
    · rw [runRounds_cons_buyer_accepts llm seller round rest ctx sp sm hb]
    · rw [runRounds_cons_buyer_accepts llm seller round rest ctx sp sm hb]
    · rw [runRounds_cons_buyer_accepts llm seller round rest ctx sp sm hb]

/-- C1 witness: in the easy scenario, at round 2 with seller price 144000
(affordable and below 85% of market), the run closes at the seller's
price. -/
theorem C1_buyer_acceptance_witness :
    (runRounds llm0 sellerW [1] ctxEasy 144000 "m").deal_made = true :=
  ((C1_buyer_acceptance llm0 sellerW 1 [] ctxEasy 144000 "m"
    (by decide)).2 (by decide)).2.1

/-- C2: the seller accepts exactly when the buyer's offer is at least
`min_price * 1.1`, and accepts at the buyer's own offer; when the buyer
did not accept in a round and the buyer's recorded offer meets that
threshold, the run terminates in that round with `deal_made = true` and
final price equal to the buyer's offer. -/
theorem C2_seller_acceptance (llm : LLMCall) (seller : MockSellerAgent)
    (o : Int) (r : Nat) (m : String) (round : Nat) (rest : List Nat)
    (ctx : NegotiationContext) (sp : Int) (sm : String)
    (hb : (buyerStep llm round { ctx with current_round := round + 1 } sp sm).1 ≠
      DealStatus.ACCEPTED)
    (hs : ((buyerStep llm round { ctx with current_round := round + 1 } sp sm).2.1 : ℚ) ≥
      1.1 * (seller.min_price : ℚ)) :
    ((seller.respond_to_buyer_offer llm o r m).2.2 = true ↔
      (o : ℚ) ≥ 1.1 * (seller.min_price : ℚ))
    ∧ ((seller.respond_to_buyer_offer llm o r m).2.2 = true →
        (seller.respond_to_buyer_offer llm o r m).1 = o)
    ∧ ((runRounds llm seller (round :: rest) ctx sp sm).deal_made = true
      ∧ (runRounds llm seller (round :: rest) ctx sp sm).final_price =
          some (buyerStep llm round { ctx with current_round := round + 1 } sp sm).2.1
      ∧ (runRounds llm seller (round :: rest) ctx sp sm).rounds = round + 1) := by
  have hiff := seller_accept_iff seller llm o r m
  refine ⟨?_, hiff.2, ?_⟩
  · rw [hiff.1]
    exact margin_test_iff o seller.min_price
  · have hacc : (seller.respond_to_buyer_offer llm
        (buyerStep llm round { ctx with current_round := round + 1 } sp sm).2.1 round
        (buyerStep llm round { ctx with current_round := round + 1 } sp sm).2.2).2.2 = true :=
      (seller_accept_iff seller llm _ round _).1.mpr
        ((margin_test_iff _ seller.min_price).mpr hs)
    refine ⟨?_, ?_, ?_⟩ <;>
      rw [runRounds_cons_seller_accepts llm seller round rest ctx sp sm hb hacc]

/-- C2 witness: in the easy scenario, at round 1 the buyer opens with
108000, the seller accepts (108000 ≥ 1.1 * 90000) and the run closes at
the buyer's offer. -/
theorem C2_seller_acceptance_witness :
    (runRounds llm0 { min_price := 90000, personality := "standard" } [0]
      ctxOpen 270000 "m").deal_made = true :=
  (C2_seller_acceptance llm0 { min_price := 90000, personality := "standard" }
    108000 0 "m" 0 [] ctxOpen 270000 "m" (by decide)
    (by
      have h108 : (buyerStep llm0 0 { ctxOpen with current_round := 0 + 1 }
          270000 "m").2.1 = 108000 := by decide
      rw [h108]
      norm_num)).2.2.1

/-- C5: a run never exceeds 10 rounds; when the loop exhausts all 10
rounds without acceptance the run reports `deal_made = false`, no final
price, and a round count of 10. -/
theorem C5_round_bound (llm : LLMCall) (product : Product) (budget seller_min : Int) :
    (run_negotiation_test llm product budget seller_min).rounds ≤ 10
    ∧ ((run_negotiation_test llm product budget seller_min).deal_made = false →
        (run_negotiation_test llm product budget seller_min).final_price = none
        ∧ (run_negotiation_test llm product budget seller_min).rounds = 10) := by
  simp only [run_negotiation_test]
  constructor
  · refine runRounds_rounds_le llm _ _ _ _ _ (Nat.zero_le 10) ?_
    intro r hrm
    have hlt := List.mem_range.mp hrm
    omega
  · intro h
    obtain ⟨h1, h2⟩ := runRounds_no_deal llm _ _ _ _ _ h
    refine ⟨h1, ?_⟩
    rw [h2]
    rfl

/-- C5 witness: the run with base 10000, budget 10000, min 9500 reaches no
deal; it reports no final price and exactly 10 rounds. -/
theorem C5_round_bound_witness :
    (run_negotiation_test llm0 mangoProduct 10000 9500).final_price = none
    ∧ (run_negotiation_test llm0 mangoProduct 10000 9500).rounds = 10 :=
  (C5_round_bound llm0 mangoProduct 10000 9500).2 (by decide)

/-- C3 counterexample: with base 10000, budget 10000, min 9500 the
recorded buyer offers are [6000, 6600, 7260, 7986, 8784, 9101, 9466,
10000, 10000, 9500]: the last step drops from 10000 to 9500 (the
near-convergence adjustment `seller_price - 1000` undercuts the previous
offer), so the sequence is not monotonically non-decreasing. -/
theorem C3_counterexample :
    ¬ List.Chain' (fun a b : Int => a ≤ b)
      ((run_negotiation_test llm0 mangoProduct 10000 9500).ctx.your_offers) := by
  intro hch
  rw [show (run_negotiation_test llm0 mangoProduct 10000 9500).ctx.your_offers =
    [6000, 6600, 7260, 7986, 8784, 9101, 9466, 10000, 10000, 9500] from by decide] at hch
  norm_num [List.chain'_cons] at hch

/-- C3 (amended): every buyer offer recorded in the context is at most the
buyer's budget.  (The monotonicity half of the original claim fails; see
the counterexample.) -/
theorem C3_offers_within_budget (llm : LLMCall) (product : Product)
    (budget seller_min : Int)
    (_hbudget : 0 < budget) (_hbase : 0 < product.base_market_price) :
    ∀ x ∈ (run_negotiation_test llm product budget seller_min).ctx.your_offers,
      x ≤ budget := by
  intro x hx
  simp only [run_negotiation_test] at hx
  exact runRounds_offers_le llm _ _ _ _ _
    (by
      intro y hy
      exact absurd hy (List.not_mem_nil y))
    x hx

/-- C3 witness: the first offer of the no-deal run is within its budget. -/
theorem C3_offers_within_budget_witness : (6000 : Int) ≤ 10000 :=
  C3_offers_within_budget llm0 mangoProduct 10000 9500 (by decide) (by decide)
    6000 (by decide)

/-- C4 counterexample: in the same run the recorded seller prices are
[15000, 9500, 9500, 9500, 9500, 10101, 10466, 10885, 11500, 10500, 9975]:
the step from 9500 to 10101 rises (the counter 1.15 * buyer_offer grows
with the buyer's offers once it clears min_price), so the sequence is not
monotonically non-increasing. -/
theorem C4_counterexample :
    ¬ List.Chain' (fun a b : Int => b ≤ a)
      ((run_negotiation_test llm0 mangoProduct 10000 9500).ctx.seller_offers) := by
  intro hch
  rw [show (run_negotiation_test llm0 mangoProduct 10000 9500).ctx.seller_offers =
    [15000, 9500, 9500, 9500, 9500, 10101, 10466, 10885, 11500, 10500, 9975] from by decide] at hch
  norm_num [List.chain'_cons] at hch

/-- C4 (amended): every seller counter recorded by the loop (every entry
of the seller price history after the opening price) is at least
`min_price`.  (The non-increasing half of the original claim fails; see
the counterexample.) -/
theorem C4_counters_above_min (llm : LLMCall) (product : Product)
    (budget seller_min : Int) :
    ∀ x ∈ (run_negotiation_test llm product budget seller_min).ctx.seller_offers.tail,
      seller_min ≤ x := by
  intro x hx
  simp only [run_negotiation_test] at hx
  obtain ⟨t, ht, hge⟩ := runRounds_seller_history llm
    { min_price := seller_min, personality := "standard" } (List.range 10) _ _ _
  rw [ht] at hx
  simp only [List.nil_append, List.singleton_append, List.tail_cons] at hx
  exact hge x hx

/-- C4 witness: the first counter of the no-deal run is at least the
seller's floor. -/
theorem C4_counters_above_min_witness : (9500 : Int) ≤ 9500 :=
  C4_counters_above_min llm0 mangoProduct 10000 9500 9500 (by decide)

/-- C6: the buyer's opening offer is `min(floor(0.6 * base), budget)`; on
the counter path, when the accept test fails, the returned status is
`ONGOING` and the offer is `candidate = min(floor(last * 1.1), budget)`,
replaced by `min(seller_price - 1000, budget)` when
`candidate > 0.95 * seller_price`. -/
theorem C6_buyer_offer_formulas (llm : LLMCall) (ctx : NegotiationContext)
    (sp : Int) (sm : String)
    (_hbudget : 0 < ctx.your_budget) (hbase : 0 < ctx.product.base_market_price) :
    (MockBuyerAgent.generate_opening_offer ctx).1 =
      min ⌊(0.6 : ℚ) * (ctx.product.base_market_price : ℚ)⌋ ctx.your_budget
    ∧ (0 ≤ ctx.your_offers.getLastD 0 →
      ¬ (sp < ctx.your_budget ∧ (sp : ℚ) < 0.85 * (ctx.product.base_market_price : ℚ)) →
      (MockBuyerAgent.respond_to_seller_offer llm ctx sp sm).1 = DealStatus.ONGOING
      ∧ (MockBuyerAgent.respond_to_seller_offer llm ctx sp sm).2.1 =
        (if ((min ⌊(ctx.your_offers.getLastD 0 : ℚ) * 1.1⌋ ctx.your_budget : Int) : ℚ) >
            0.95 * (sp : ℚ)
         then min (sp - 1000) ctx.your_budget
         else min ⌊(ctx.your_offers.getLastD 0 : ℚ) * 1.1⌋ ctx.your_budget)) := by
  constructor
  · unfold MockBuyerAgent.generate_opening_offer
    rw [tdiv_six_ten ctx.product.base_market_price hbase.le]
  · intro hlast hnacc
    have hnacc' : ¬ (sp < ctx.your_budget ∧
        100 * sp < 85 * ctx.product.base_market_price) := by
      rintro ⟨h1, h2⟩
      exact hnacc ⟨h1, (accept_test_iff sp ctx.product.base_market_price).mp h2⟩
    constructor
    · unfold MockBuyerAgent.respond_to_seller_offer
      rw [if_neg hnacc']
    · unfold MockBuyerAgent.respond_to_seller_offer
      rw [if_neg hnacc']
      dsimp only
      rw [tdiv_eleven_ten (ctx.your_offers.getLastD 0) hlast]
      exact if_congr (near_close_iff _ sp) rfl rfl

/-- C6 witness: in the mid-run context (last own offer 8784, seller price
10101, budget 10000) the accept test fails and the counter path returns
`ONGOING`. -/
theorem C6_buyer_offer_formulas_witness :
    (MockBuyerAgent.respond_to_seller_offer llm0 ctxMid 10101 "m").1 =
      DealStatus.ONGOING :=
  ((C6_buyer_offer_formulas llm0 ctxMid 10101 "m" (by decide) (by decide)).2
    (by decide)
    (by
      rintro ⟨h1, _⟩
      revert h1
      decide)).1

/-- C7: the seller's opening price is `floor(1.5 * base)`; for a buyer
offer below the acceptance threshold, the counter is
`max(min_price, floor(offer * 1.05))` when the round number passed in is
at least 8 and `max(min_price, floor(offer * 1.15))` otherwise. -/
theorem C7_seller_price_formulas (llm : LLMCall) (seller : MockSellerAgent)
    (product : Product) (o : Int) (r : Nat) (m : String)
    (hbase : 0 < product.base_market_price) (ho : 0 ≤ o)
    (hthr : (o : ℚ) < 1.1 * (seller.min_price : ℚ)) :
    (seller.get_opening_price product).1 =
      ⌊(1.5 : ℚ) * (product.base_market_price : ℚ)⌋
    ∧ (seller.respond_to_buyer_offer llm o r m).1 =
      (if 8 ≤ r then max seller.min_price ⌊(o : ℚ) * 1.05⌋
       else max seller.min_price ⌊(o : ℚ) * 1.15⌋) := by
  constructor
  · unfold MockSellerAgent.get_opening_price
    rw [tdiv_three_two product.base_market_price hbase.le]
  · have hn : ¬ 10 * o ≥ 11 * seller.min_price := by
      intro hcon
      exact absurd ((margin_test_iff o seller.min_price).mp hcon) (not_le.mpr hthr)
    unfold MockSellerAgent.respond_to_buyer_offer
    rw [if_neg hn]
    dsimp only
    rw [tdiv_twentyone_twenty o ho, tdiv_twentythree_twenty o ho]

/-- C7 witness: the seller's opening price for base market price 10000 is
15000. -/
theorem C7_seller_price_formulas_witness :
    (MockSellerAgent.get_opening_price sellerW mangoProduct).1 = 15000 := by
  have h := (C7_seller_price_formulas llm0 sellerW mangoProduct 10000 8 "m"
    (by decide) (by decide) (by norm_num [sellerW])).1
  rw [h]
  rw [show (mangoProduct.base_market_price : ℚ) = ((15000 : Int) : ℚ) / 1.5 by
    norm_num [mangoProduct]]
  rw [show (1.5 : ℚ) * (((15000 : Int) : ℚ) / 1.5) = ((15000 : Int) : ℚ) by
    norm_num]
  exact Int.floor_intCast 15000

/-- The counter returned by the seller below the acceptance threshold,
phrased by the transition round `r + 1` of the orchestrator (which passes
the 0-based index `r`). -/
lemma seller_counter_formula (seller : MockSellerAgent) (llm : LLMCall)
    (o : Int) (r : Nat) (m : String)
    (hn : ¬ 10 * o ≥ 11 * seller.min_price) :
    (seller.respond_to_buyer_offer llm o r m).1 =
      if 9 ≤ r + 1 then max seller.min_price (Int.tdiv (o * 21) 20)
      else max seller.min_price (Int.tdiv (o * 23) 20) := by
  unfold MockSellerAgent.respond_to_buyer_offer
  rw [if_neg hn]
  dsimp only
  exact if_congr (by omega) rfl rfl

/-- Below the acceptance threshold the seller does not accept. -/
lemma seller_not_accept_flag (seller : MockSellerAgent) (llm : LLMCall)
    (o : Int) (r : Nat) (m : String)
    (hn : ¬ 10 * o ≥ 11 * seller.min_price) :
    (seller.respond_to_buyer_offer llm o r m).2.2 = false := by
  unfold MockSellerAgent.respond_to_buyer_offer
  rw [if_neg hn]

/-- C8 counterexample: in the run with base 10000, budget 10000, min
9500, transition round r = 8 has buyer offer 10000 and records the
counter 11500 = max(9500, int(10000 * 1.15)); the small-concession value
max(9500, int(10000 * 1.05)) = 10500 is not recorded, so the 1.05 branch
is not taken at r = 8 (the seller saw round number 7, not 8). -/
theorem C8_counterexample :
    (run_negotiation_test llm0 mangoProduct 10000 9500).ctx.your_offers[7]? = some 10000
    ∧ (run_negotiation_test llm0 mangoProduct 10000 9500).ctx.seller_offers[8]? = some 11500
    ∧ (11500 : Int) = max 9500 (Int.tdiv (10000 * 23) 20)
    ∧ (11500 : Int) ≠ max 9500 (Int.tdiv (10000 * 21) 20) := by
  decide

/-- C8 (amended): the orchestrator passes the 0-based loop index, which
is `r - 1` for transition round `r = round + 1`; consequently the
small-concession (1.05) branch governs the counter recorded by a
non-terminating round exactly when `r ≥ 9`. -/
theorem C8_time_pressure_rounds (llm : LLMCall) (seller : MockSellerAgent)
    (round : Nat) (rest : List Nat) (ctx : NegotiationContext) (sp : Int) (sm : String)
    (hb : (buyerStep llm round { ctx with current_round := round + 1 } sp sm).1 ≠
      DealStatus.ACCEPTED)
    (hn : ¬ 10 * (buyerStep llm round { ctx with current_round := round + 1 } sp sm).2.1 ≥
      11 * seller.min_price) :
    ∃ t : List Int,
      (runRounds llm seller (round :: rest) ctx sp sm).ctx.seller_offers =
        ctx.seller_offers ++
          ((if 9 ≤ round + 1
            then max seller.min_price (Int.tdiv
              ((buyerStep llm round { ctx with current_round := round + 1 } sp sm).2.1 * 21) 20)
            else max seller.min_price (Int.tdiv
              ((buyerStep llm round { ctx with current_round := round + 1 } sp sm).2.1 * 23) 20)) :: t) := by
  have hs : (seller.respond_to_buyer_offer llm
      (buyerStep llm round { ctx with current_round := round + 1 } sp sm).2.1 round
      (buyerStep llm round { ctx with current_round := round + 1 } sp sm).2.2).2.2 = false :=
    seller_not_accept_flag seller llm _ round _ hn
  rw [runRounds_cons_continue llm seller round rest ctx sp sm hb hs]
  obtain ⟨t, ht, _⟩ := runRounds_seller_history llm seller rest _ _ _
  refine ⟨t, ?_⟩
  rw [ht]
  show (ctx.seller_offers ++ [(seller.respond_to_buyer_offer llm
      (buyerStep llm round { ctx with current_round := round + 1 } sp sm).2.1 round
      (buyerStep llm round { ctx with current_round := round + 1 } sp sm).2.2).1]) ++ t = _
  rw [seller_counter_formula seller llm
    (buyerStep llm round { ctx with current_round := round + 1 } sp sm).2.1 round
    (buyerStep llm round { ctx with current_round := round + 1 } sp sm).2.2 hn]
  rw [List.append_assoc, List.singleton_append]

/-- C8 witness: at 0-based loop index 8 (transition round 9) with buyer
offer 10000 below the threshold, the recorded counter takes the
small-concession branch. -/
theorem C8_time_pressure_rounds_witness :
    ∃ t : List Int,
      (runRounds llm0 sellerW (8 :: []) ctxLate 11500 "m").ctx.seller_offers =
        ctxLate.seller_offers ++
          ((if 9 ≤ 8 + 1
            then max sellerW.min_price (Int.tdiv
              ((buyerStep llm0 8 { ctxLate with current_round := 8 + 1 } 11500 "m").2.1 * 21) 20)
            else max sellerW.min_price (Int.tdiv
              ((buyerStep llm0 8 { ctxLate with current_round := 8 + 1 } 11500 "m").2.1 * 23) 20)) :: t) :=
  C8_time_pressure_rounds llm0 sellerW 8 [] ctxLate 11500 "m" (by decide) (by decide)

/-- C9: the core performs no input validation: with the non-positive
budget 0 the negotiation is not refused; the loop runs all 10 rounds,
records 10 buyer offers, and returns an ordinary no-deal report instead
of signalling a configuration error. -/
theorem C9_no_input_validation :
    (run_negotiation_test llm0 mangoProduct 0 9500).ctx.your_offers.length = 10
    ∧ (run_negotiation_test llm0 mangoProduct 0 9500).deal_made = false
    ∧ (run_negotiation_test llm0 mangoProduct 0 9500).rounds = 10 := by
  decide

/-- C10: the numeric outputs of both strategies are independent of the
incoming message text and of the text produced by the generation
capability: for any two message inputs and any two generators, the
buyer's (status, price) and the seller's (price, accepted) coincide. -/
theorem C10_message_independence (llm1 llm2 : LLMCall) (ctx : NegotiationContext)
    (sp : Int) (m1 m2 : String) (seller : MockSellerAgent) (o : Int) (r : Nat)
    (bm1 bm2 : String) :
    (MockBuyerAgent.respond_to_seller_offer llm1 ctx sp m1).1 =
      (MockBuyerAgent.respond_to_seller_offer llm2 ctx sp m2).1
    ∧ (MockBuyerAgent.respond_to_seller_offer llm1 ctx sp m1).2.1 =
      (MockBuyerAgent.respond_to_seller_offer llm2 ctx sp m2).2.1
    ∧ (seller.respond_to_buyer_offer llm1 o r bm1).1 =
      (seller.respond_to_buyer_offer llm2 o r bm2).1
    ∧ (seller.respond_to_buyer_offer llm1 o r bm1).2.2 =
      (seller.respond_to_buyer_offer llm2 o r bm2).2.2 := by
  unfold MockBuyerAgent.respond_to_seller_offer MockSellerAgent.respond_to_buyer_offer
  refine ⟨?_, ?_, ?_, ?_⟩ <;> split <;> rfl

end AINegotiation
